import Mathlib

/-!
Verification of the computational engine of the Microeconomy-graph-tool
repository: ordinary-least-squares curve fitting, equilibrium solving and
surplus computation (`funct.py`), and the `Calculator` pipeline of `main.py`.

Numeric values are embedded as exact rationals (`ℚ`).  Python's
`float("inf")`, which the code produces for the price-axis intercept of a
horizontal curve, is embedded by the small type `PyF` of rationals extended
with signed infinities and a not-a-number element, with the IEEE-style
arithmetic Python floats use on them.  Fallible functions (Python
`raise ValueError(msg)`) are embedded as `Except String`, carrying the exact
message string of the `ValueError`.
-/

instance {ε α : Type} [DecidableEq ε] [DecidableEq α] :
    DecidableEq (Except ε α) := fun a b =>
  match a, b with
  | .error x, .error y =>
    if h : x = y then .isTrue (by rw [h]) else
      .isFalse (by intro hc; cases hc; exact h rfl)
  | .ok x, .ok y =>
    if h : x = y then .isTrue (by rw [h]) else
      .isFalse (by intro hc; cases hc; exact h rfl)
  | .error _, .ok _ => .isFalse (by intro hc; cases hc)
  | .ok _, .error _ => .isFalse (by intro hc; cases hc)

/-- Tolerance constant `1e-10` appearing in the near-zero guards of
`calculate_slope` and `calculate_equilibrium` in `funct.py`. -/
def tol : ℚ := 1 / 10 ^ 10

/-- Embedding of `calculate_sums` (funct.py lines 13-52): validates lengths
and the point count, then returns the five regression sums. -/
def calculate_sums (independent_variable dependent_variable : List ℚ)
    (data_points_count : ℕ) : Except String (ℚ × ℚ × ℚ × ℚ × ℚ) :=
  if independent_variable.length ≠ dependent_variable.length
      ∨ independent_variable.length ≠ data_points_count then
    .error "All arrays must have the same length"
  else if data_points_count < 2 then
    .error "At least 2 data points are required for regression"
  else
    .ok (independent_variable.sum,
         dependent_variable.sum,
         (independent_variable.map (fun x => x ^ 2)).sum,
         ((independent_variable.zip dependent_variable).map (fun p => p.1 * p.2)).sum,
         (dependent_variable.map (fun y => y ^ 2)).sum)

/-- Embedding of `calculate_slope` (funct.py lines 55-86). -/
def calculate_slope (sum_independent sum_dependent sum_independent_squared
    sum_independent_dependent_product : ℚ) (data_points_count : ℕ) :
    Except String ℚ :=
  let denominator :=
    sum_independent_squared - sum_independent ^ 2 / (data_points_count : ℚ)
  if |denominator| < tol then
    .error "Cannot calculate slope: denominator is too close to zero"
  else
    .ok ((sum_independent_dependent_product -
          sum_independent * sum_dependent / (data_points_count : ℚ)) / denominator)

/-- Embedding of `calculate_intercept` (funct.py lines 89-103). -/
def calculate_intercept (sum_independent sum_dependent slope : ℚ)
    (data_points_count : ℕ) : ℚ :=
  (1 / (data_points_count : ℚ)) * (sum_dependent - slope * sum_independent)

/-- Embedding of `perform_calculations` (funct.py lines 106-141): empty-input
check, then sums, slope, intercept; returns `(intercept, slope)`. -/
def perform_calculations (quantity_values price_values : List ℚ)
    (data_points_count : ℕ) : Except String (ℚ × ℚ) :=
  if quantity_values = [] ∨ price_values = [] then
    .error "Input arrays cannot be empty"
  else
    match calculate_sums quantity_values price_values data_points_count with
    | .error e => .error e
    | .ok (sum_independent, sum_dependent, sum_independent_squared,
           sum_independent_dependent_product, _) =>
      match calculate_slope sum_independent sum_dependent
          sum_independent_squared sum_independent_dependent_product
          data_points_count with
      | .error e => .error e
      | .ok slope =>
        .ok (calculate_intercept sum_independent sum_dependent slope
               data_points_count, slope)

/-- Embedding of `calculate_equilibrium` (funct.py lines 144-175). -/
def calculate_equilibrium
    (demand_intercept demand_slope supply_intercept supply_slope : ℚ) :
    Except String (ℚ × ℚ) :=
  if |demand_slope - supply_slope| < tol then
    .error "Demand and supply curves are parallel - no equilibrium exists"
  else
    let equilibrium_price :=
      (supply_intercept - demand_intercept) / (demand_slope - supply_slope)
    let equilibrium_quantity :=
      demand_intercept + demand_slope * equilibrium_price
    if equilibrium_price < 0 ∨ equilibrium_quantity < 0 then
      .error "Equilibrium point has negative values"
    else
      .ok (equilibrium_price, equilibrium_quantity)

/-- Python float values as they occur in this program: finite rationals,
the two signed infinities produced by the `float("inf")` fallbacks for
price-axis intercepts, and not-a-number (closure of the arithmetic). -/
inductive PyF where
  | fin : ℚ → PyF
  | pinf : PyF
  | ninf : PyF
  | nan : PyF
deriving DecidableEq, Repr

/-- Negation of a Python float. -/
def PyF.neg : PyF → PyF
  | .fin a => .fin (-a)
  | .pinf => .ninf
  | .ninf => .pinf
  | .nan => .nan

/-- Addition of Python floats (IEEE semantics: `inf + (-inf) = nan`). -/
def PyF.add : PyF → PyF → PyF
  | .nan, _ => .nan
  | _, .nan => .nan
  | .fin a, .fin b => .fin (a + b)
  | .fin _, .pinf => .pinf
  | .fin _, .ninf => .ninf
  | .pinf, .fin _ => .pinf
  | .ninf, .fin _ => .ninf
  | .pinf, .pinf => .pinf
  | .ninf, .ninf => .ninf
  | .pinf, .ninf => .nan
  | .ninf, .pinf => .nan

/-- Subtraction of Python floats. -/
def PyF.sub (a b : PyF) : PyF := a.add b.neg

/-- Multiplication of Python floats (IEEE semantics: `0 * inf = nan`). -/
def PyF.mul : PyF → PyF → PyF
  | .nan, _ => .nan
  | _, .nan => .nan
  | .fin a, .fin b => .fin (a * b)
  | .fin a, .pinf => if 0 < a then .pinf else if a < 0 then .ninf else .nan
  | .fin a, .ninf => if 0 < a then .ninf else if a < 0 then .pinf else .nan
  | .pinf, .fin b => if 0 < b then .pinf else if b < 0 then .ninf else .nan
  | .ninf, .fin b => if 0 < b then .ninf else if b < 0 then .pinf else .nan
  | .pinf, .pinf => .pinf
  | .pinf, .ninf => .ninf
  | .ninf, .pinf => .ninf
  | .ninf, .ninf => .pinf

/-- Division of a Python float by the finite positive literal `2`, the only
division applied to possibly-infinite values in `calculate_surpluses`. -/
def PyF.half : PyF → PyF
  | .fin a => .fin (a / 2)
  | .pinf => .pinf
  | .ninf => .ninf
  | .nan => .nan

instance : Neg PyF := ⟨PyF.neg⟩

instance : Add PyF := ⟨PyF.add⟩

instance : Sub PyF := ⟨PyF.sub⟩

instance : Mul PyF := ⟨PyF.mul⟩

/-- Embedding of `calculate_surpluses` (funct.py lines 178-218).  The
equilibrium point and the supply quantity-axis intercept are finite in every
call site of the program; the two price-axis intercepts may be `float("inf")`
and are passed as `PyF`. -/
def calculate_surpluses (equilibrium_quantity equilibrium_price : ℚ)
    (demand_price_intercept : PyF) (supply_quantity_intercept : ℚ)
    (supply_price_intercept : PyF) : Except String (PyF × PyF) :=
  if equilibrium_quantity ≤ 0 ∨ equilibrium_price ≤ 0 then
    .error "Equilibrium values must be positive"
  else
    let consumer_surplus :=
      (PyF.fin equilibrium_quantity *
        (demand_price_intercept - PyF.fin equilibrium_price)).half
    let producer_surplus :=
      if supply_quantity_intercept > 0 then
        PyF.fin (((equilibrium_quantity + supply_quantity_intercept) *
          equilibrium_price) / 2)
      else
        (PyF.fin equilibrium_quantity *
          (PyF.fin equilibrium_price - supply_price_intercept)).half
    .ok (consumer_surplus, producer_surplus)

/-- The price-axis-intercept expression shared by `_calculate_plot_data`
(funct.py lines 256-265) and `Calculator.calculate_equilibrium_and_surpluses`
(main.py lines 182-187): `-intercept / slope if slope != 0 else
float("inf")`. -/
def price_intercept (intercept slope : ℚ) : PyF :=
  if slope ≠ 0 then PyF.fin (-intercept / slope) else PyF.pinf

namespace Calculator

/-- Embedding of `Calculator.calculate_curves` (main.py lines 121-154): fits
both curves with `perform_calculations` (independent variable = quantities,
dependent = prices, count = length of the price list) and rewraps any
`ValueError` as `"Error calculating curves: " + message`. -/
def calculate_curves
    (demand_prices demand_quantities supply_prices supply_quantities :
      List ℚ) : Except String (ℚ × ℚ × ℚ × ℚ) :=
  match perform_calculations demand_quantities demand_prices
      demand_prices.length with
  | .error e => .error ("Error calculating curves: " ++ e)
  | .ok (demand_intercept, demand_slope) =>
    match perform_calculations supply_quantities supply_prices
        supply_prices.length with
    | .error e => .error ("Error calculating curves: " ++ e)
    | .ok (supply_intercept, supply_slope) =>
      .ok (demand_intercept, demand_slope, supply_intercept, supply_slope)

/-- The result record built by
`Calculator.calculate_equilibrium_and_surpluses` (main.py lines 198-204). -/
structure EquilibriumData where
  equilibrium_price : ℚ
  equilibrium_quantity : ℚ
  consumer_surplus : PyF
  producer_surplus : PyF
  total_surplus : PyF
deriving DecidableEq, Repr

/-- Embedding of `Calculator.calculate_equilibrium_and_surpluses`
(main.py lines 156-207): equilibrium, the two price-axis intercepts,
surpluses, the result record; any `ValueError` raised inside is rewrapped as
`"Error calculating equilibrium: " + message`. -/
def calculate_equilibrium_and_surpluses
    (demand_intercept demand_slope supply_intercept supply_slope : ℚ) :
    Except String EquilibriumData :=
  match calculate_equilibrium demand_intercept demand_slope supply_intercept
      supply_slope with
  | .error e => .error ("Error calculating equilibrium: " ++ e)
  | .ok (equilibrium_price, equilibrium_quantity) =>
    let demand_price_intercept := price_intercept demand_intercept demand_slope
    let supply_price_intercept := price_intercept supply_intercept supply_slope
    match calculate_surpluses equilibrium_quantity equilibrium_price
        demand_price_intercept supply_intercept supply_price_intercept with
    | .error e => .error ("Error calculating equilibrium: " ++ e)
    | .ok (consumer_surplus, producer_surplus) =>
      .ok ⟨equilibrium_price, equilibrium_quantity, consumer_surplus,
           producer_surplus, consumer_surplus + producer_surplus⟩

end Calculator

lemma tol_pos : 0 < tol := by norm_num [tol]

lemma calculate_sums_eq_ok (xs ys : List ℚ) (n : ℕ)
    (hx : xs.length = n) (hy : ys.length = n) (hn : 2 ≤ n) :
    calculate_sums xs ys n =
      .ok (xs.sum, ys.sum, (xs.map fun x => x ^ 2).sum,
           ((xs.zip ys).map fun p => p.1 * p.2).sum,
           (ys.map fun y => y ^ 2).sum) := by
  unfold calculate_sums
  rw [if_neg (by simp [hx, hy]), if_neg (by omega)]

lemma perform_calculations_eq_ok (xs ys : List ℚ) (n : ℕ)
    (hx : xs.length = n) (hy : ys.length = n) (hn : 2 ≤ n)
    (hden : tol ≤ |(xs.map fun x => x ^ 2).sum - xs.sum ^ 2 / (n : ℚ)|) :
    perform_calculations xs ys n =
      .ok ((1 / (n : ℚ)) * (ys.sum -
             ((((xs.zip ys).map fun p => p.1 * p.2).sum -
                 xs.sum * ys.sum / (n : ℚ)) /
               ((xs.map fun x => x ^ 2).sum - xs.sum ^ 2 / (n : ℚ))) * xs.sum),
           (((xs.zip ys).map fun p => p.1 * p.2).sum -
               xs.sum * ys.sum / (n : ℚ)) /
             ((xs.map fun x => x ^ 2).sum - xs.sum ^ 2 / (n : ℚ))) := by
  have hxne : xs ≠ [] := by
    intro h; rw [h] at hx; simp at hx; omega
  have hyne : ys ≠ [] := by
    intro h; rw [h] at hy; simp at hy; omega
  unfold perform_calculations
  rw [if_neg (by simp [hxne, hyne]), calculate_sums_eq_ok xs ys n hx hy hn]
  simp only [calculate_slope, calculate_intercept]
  rw [if_neg (not_lt.mpr hden)]

lemma perform_calculations_degenerate (xs ys : List ℚ) (n : ℕ)
    (hx : xs.length = n) (hy : ys.length = n) (hn : 2 ≤ n)
    (hden : |(xs.map fun x => x ^ 2).sum - xs.sum ^ 2 / (n : ℚ)| < tol) :
    perform_calculations xs ys n =
      .error "Cannot calculate slope: denominator is too close to zero" := by
  have hxne : xs ≠ [] := by
    intro h; rw [h] at hx; simp at hx; omega
  have hyne : ys ≠ [] := by
    intro h; rw [h] at hy; simp at hy; omega
  unfold perform_calculations
  rw [if_neg (by simp [hxne, hyne]), calculate_sums_eq_ok xs ys n hx hy hn]
  simp only [calculate_slope, calculate_intercept]
  rw [if_pos hden]

lemma sum_map_affine (xs : List ℚ) (a b : ℚ) :
    (xs.map fun x => a + b * x).sum = a * xs.length + b * xs.sum := by
  induction xs with
  | nil => simp
  | cons x xs ih =>
    simp only [List.map_cons, List.sum_cons, ih, List.length_cons]
    push_cast
    ring

lemma sum_zip_affine (xs : List ℚ) (a b : ℚ) :
    ((xs.zip (xs.map fun x => a + b * x)).map fun p => p.1 * p.2).sum =
      a * xs.sum + b * (xs.map fun x => x ^ 2).sum := by
  induction xs with
  | nil => simp
  | cons x xs ih =>
    simp only [List.map_cons, List.zip_cons_cons, List.sum_cons, ih]
    ring

lemma calculate_equilibrium_ok_inv {di ds si ss p q : ℚ}
    (h : calculate_equilibrium di ds si ss = .ok (p, q)) :
    tol ≤ |ds - ss| ∧ p = (si - di) / (ds - ss) ∧ q = di + ds * p := by
  simp only [calculate_equilibrium] at h
  by_cases h1 : |ds - ss| < tol
  · rw [if_pos h1] at h
    exact absurd h (by simp)
  · rw [if_neg h1] at h
    by_cases h2 : (si - di) / (ds - ss) < 0 ∨
        di + ds * ((si - di) / (ds - ss)) < 0
    · rw [if_pos h2] at h
      exact absurd h (by simp)
    · rw [if_neg h2] at h
      simp only [Except.ok.injEq, Prod.mk.injEq] at h
      exact ⟨not_lt.mp h1, h.1.symm, by rw [← h.1, ← h.2]⟩

/-- Claim C1: for every pair of equal-length numeric sequences of length
`n ≥ 2` whose regression denominator `Σx² − (Σx)²/n` is at least `1e-10` in
absolute value, `perform_calculations` returns
`slope = (Σxy − ΣxΣy/n) / (Σx² − (Σx)²/n)` and
`intercept = (Σy − slope·Σx)/n`, the sums ranging over the independent `xs`
and dependent `ys`. -/
theorem fit_formula_correct (xs ys : List ℚ) (n : ℕ)
    (hx : xs.length = n) (hy : ys.length = n) (hn : 2 ≤ n)
    (hden : tol ≤ |(xs.map fun x => x ^ 2).sum - xs.sum ^ 2 / (n : ℚ)|) :
    perform_calculations xs ys n =
      .ok ((ys.sum -
             ((((xs.zip ys).map fun p => p.1 * p.2).sum -
                 xs.sum * ys.sum / (n : ℚ)) /
               ((xs.map fun x => x ^ 2).sum - xs.sum ^ 2 / (n : ℚ))) *
               xs.sum) / (n : ℚ),
           (((xs.zip ys).map fun p => p.1 * p.2).sum -
               xs.sum * ys.sum / (n : ℚ)) /
             ((xs.map fun x => x ^ 2).sum - xs.sum ^ 2 / (n : ℚ))) := by
  rw [perform_calculations_eq_ok xs ys n hx hy hn hden, one_div,
    inv_mul_eq_div]

/-- Witness for C1 at the concrete series `x = [1, 2]`, `y = [3, 5]`. -/
theorem fit_formula_correct_witness :
    perform_calculations [1, 2] [3, 5] 2 = .ok (1, 2) := by
  have h := fit_formula_correct [1, 2] [3, 5] 2 (by simp) (by simp)
    (by norm_num) (by norm_num [tol, abs_div])
  rw [h]
  norm_num

/-- Claim C5: under the fit precondition, `perform_calculations` fails with
the degenerate-denominator error exactly when `|Σx² − (Σx)²/n| < 1e-10`; in
particular it fails whenever all independent values are identical. -/
theorem fit_degenerate_iff (xs ys : List ℚ) (n : ℕ)
    (hx : xs.length = n) (hy : ys.length = n) (hn : 2 ≤ n) :
    (perform_calculations xs ys n =
        .error "Cannot calculate slope: denominator is too close to zero" ↔
      |(xs.map fun x => x ^ 2).sum - xs.sum ^ 2 / (n : ℚ)| < tol) ∧
    (∀ c : ℚ, (∀ x ∈ xs, x = c) →
      perform_calculations xs ys n =
        .error "Cannot calculate slope: denominator is too close to zero") := by
  constructor
  · constructor
    · intro h
      by_contra hge
      rw [perform_calculations_eq_ok xs ys n hx hy hn (not_lt.mp hge)] at h
      exact absurd h (by simp)
    · intro h
      exact perform_calculations_degenerate xs ys n hx hy hn h
  · intro c hc
    have hrep : xs = List.replicate n c := List.eq_replicate_iff.mpr ⟨hx, hc⟩
    have hn0 : (n : ℚ) ≠ 0 := Nat.cast_ne_zero.mpr (by omega)
    have hzero : (xs.map fun x => x ^ 2).sum - xs.sum ^ 2 / (n : ℚ) = 0 := by
      rw [hrep, List.map_replicate, List.sum_replicate, List.sum_replicate,
        nsmul_eq_mul, nsmul_eq_mul]
      field_simp
      ring
    apply perform_calculations_degenerate xs ys n hx hy hn
    rw [hzero]
    simpa using tol_pos

/-- Witness for C5 at the concrete series `x = [5, 5]`, `y = [1, 2]`. -/
theorem fit_degenerate_iff_witness :
    perform_calculations [5, 5] [1, 2] 2 =
      .error "Cannot calculate slope: denominator is too close to zero" := by
  refine (fit_degenerate_iff [5, 5] [1, 2] 2 (by simp) (by simp)
    (by norm_num)).2 5 ?_
  intro x hx
  simp at hx
  exact hx

/-- Claim C9: `perform_calculations`, called as the program calls it with
`data_points_count` equal to the length of the dependent list, fails with one
of the three invalid-input errors whenever the lists have different lengths,
either list is empty, or the common length is less than 2 — and never returns
a fitted curve in those cases. -/
theorem fit_invalid_input (xs ys : List ℚ)
    (h : xs.length ≠ ys.length ∨ xs = [] ∨ ys = [] ∨ xs.length < 2) :
    (perform_calculations xs ys ys.length =
        .error "Input arrays cannot be empty" ∨
     perform_calculations xs ys ys.length =
        .error "All arrays must have the same length" ∨
     perform_calculations xs ys ys.length =
        .error "At least 2 data points are required for regression") ∧
    ∀ r : ℚ × ℚ, perform_calculations xs ys ys.length ≠ .ok r := by
  have key : perform_calculations xs ys ys.length =
        .error "Input arrays cannot be empty" ∨
      perform_calculations xs ys ys.length =
        .error "All arrays must have the same length" ∨
      perform_calculations xs ys ys.length =
        .error "At least 2 data points are required for regression" := by
    by_cases he : xs = [] ∨ ys = []
    · left
      unfold perform_calculations
      rw [if_pos he]
    · have he' : xs ≠ [] ∧ ys ≠ [] := by
        constructor <;> intro hcon <;> exact he (by simp [hcon])
      unfold perform_calculations
      rw [if_neg he]
      by_cases hlen : xs.length = ys.length
      · have hlt : xs.length < 2 := by
          rcases h with h | h | h | h
          · exact absurd hlen h
          · exact absurd h he'.1
          · exact absurd h he'.2
          · exact h
        right; right
        unfold calculate_sums
        rw [if_neg (by simp [hlen]), if_pos (by omega)]
      · right; left
        unfold calculate_sums
        rw [if_pos (Or.inl hlen)]
  refine ⟨key, ?_⟩
  intro r hr
  rcases key with k | k | k <;> rw [k] at hr <;> exact absurd hr (by simp)

/-- Witness for C9 at the concrete invalid input `x = [1]`, `y = [2]`
(only one data point). -/
theorem fit_invalid_input_witness :
    perform_calculations [(1 : ℚ)] [(2 : ℚ)] [(2 : ℚ)].length =
        .error "Input arrays cannot be empty" ∨
      perform_calculations [(1 : ℚ)] [(2 : ℚ)] [(2 : ℚ)].length =
        .error "All arrays must have the same length" ∨
      perform_calculations [(1 : ℚ)] [(2 : ℚ)] [(2 : ℚ)].length =
        .error "At least 2 data points are required for regression" :=
  (fit_invalid_input [1] [2] (Or.inr (Or.inr (Or.inr (by simp))))).1

/-- Claim C8 (amended): for every sample series whose points lie exactly on
the line `y = a + b·x` and whose regression denominator is at least `1e-10`
in absolute value (which covers two-point and collinear series whose distinct
x-values are not extremely close), the fit returns exactly intercept `a` and
slope `b`. -/
theorem fit_line_exact (xs : List ℚ) (a b : ℚ) (hn : 2 ≤ xs.length)
    (hden : tol ≤ |(xs.map fun x => x ^ 2).sum -
        xs.sum ^ 2 / (xs.length : ℚ)|) :
    perform_calculations xs (xs.map fun x => a + b * x) xs.length =
      .ok (a, b) := by
  have hlen : (xs.map fun x => a + b * x).length = xs.length :=
    List.length_map _ _
  rw [perform_calculations_eq_ok xs _ xs.length rfl hlen hn hden]
  have hn0 : (xs.length : ℚ) ≠ 0 := Nat.cast_ne_zero.mpr (by omega)
  have hD : (xs.map fun x => x ^ 2).sum - xs.sum ^ 2 / (xs.length : ℚ) ≠ 0 := by
    intro h0
    rw [h0] at hden
    simp at hden
    exact absurd hden (not_le.mpr tol_pos)
  have hslope :
      (((xs.zip (xs.map fun x => a + b * x)).map fun p => p.1 * p.2).sum -
          xs.sum * (xs.map fun x => a + b * x).sum / (xs.length : ℚ)) /
        ((xs.map fun x => x ^ 2).sum - xs.sum ^ 2 / (xs.length : ℚ)) = b := by
    rw [sum_zip_affine, sum_map_affine]
    rw [show a * xs.sum + b * (xs.map fun x => x ^ 2).sum -
        xs.sum * (a * (xs.length : ℚ) + b * xs.sum) / (xs.length : ℚ) =
        b * ((xs.map fun x => x ^ 2).sum - xs.sum ^ 2 / (xs.length : ℚ)) by
      field_simp
      ring]
    rw [mul_div_assoc, div_self hD, mul_one]
  simp only [Except.ok.injEq, Prod.mk.injEq]
  refine ⟨?_, hslope⟩
  rw [hslope, sum_map_affine]
  field_simp

/-- Witness for C8 at the concrete collinear series on `y = 3 + 5·x` over
`x = [1, 2]`. -/
theorem fit_line_exact_witness :
    perform_calculations [(1 : ℚ), 2]
        ([(1 : ℚ), 2].map fun x => 3 + 5 * x) [(1 : ℚ), 2].length =
      .ok (3, 5) :=
  fit_line_exact [1, 2] 3 5 (by simp) (by norm_num [tol, abs_div])

/-- Claim C8 counterexample: the points `(0, 0)` and `(1e-6, 1e-6)` lie on
the line `y = 0 + 1·x` and have distinct independent values, yet the fit
fails with the degenerate-denominator error instead of returning the line's
intercept `0` and slope `1`. -/
theorem fit_close_points_counterexample :
    [(0 : ℚ), 1 / 1000000].map (fun x => 0 + 1 * x) = [0, 1 / 1000000] ∧
    (0 : ℚ) ≠ 1 / 1000000 ∧
    perform_calculations [0, 1 / 1000000] [0, 1 / 1000000] 2 =
      .error "Cannot calculate slope: denominator is too close to zero" := by
  refine ⟨by norm_num, by norm_num, ?_⟩
  norm_num [perform_calculations, calculate_sums, calculate_slope, tol,
    abs_div, List.cons_ne_nil]

lemma fin_sub_fin (a b : ℚ) : PyF.fin a - PyF.fin b = PyF.fin (a - b) := by
  show (PyF.fin a).sub (PyF.fin b) = PyF.fin (a - b)
  simp [PyF.sub, PyF.add, PyF.neg, sub_eq_add_neg]

lemma fin_mul_fin (a b : ℚ) : PyF.fin a * PyF.fin b = PyF.fin (a * b) := rfl

lemma fin_half (a : ℚ) : (PyF.fin a).half = PyF.fin (a / 2) := rfl

lemma calculate_equilibrium_eq_ok {di ds si ss : ℚ}
    (h1 : tol ≤ |ds - ss|)
    (h2 : ¬((si - di) / (ds - ss) < 0 ∨
      di + ds * ((si - di) / (ds - ss)) < 0)) :
    calculate_equilibrium di ds si ss =
      .ok ((si - di) / (ds - ss), di + ds * ((si - di) / (ds - ss))) := by
  simp only [calculate_equilibrium]
  rw [if_neg (not_lt.mpr h1), if_neg h2]

lemma parallel_error_iff (di ds si ss : ℚ) :
    calculate_equilibrium di ds si ss =
        .error "Demand and supply curves are parallel - no equilibrium exists" ↔
      |ds - ss| < tol := by
  simp only [calculate_equilibrium]
  by_cases h1 : |ds - ss| < tol
  · rw [if_pos h1]
    exact iff_of_true rfl h1
  · rw [if_neg h1]
    by_cases h2 : (si - di) / (ds - ss) < 0 ∨
        di + ds * ((si - di) / (ds - ss)) < 0
    · rw [if_pos h2]
      exact iff_of_false (by simp) h1
    · rw [if_neg h2]
      exact iff_of_false (by simp) h1

lemma calculate_surpluses_pos (q p dpi sqi spi : ℚ)
    (hp : 0 < p) (hq : 0 < q) :
    calculate_surpluses q p (PyF.fin dpi) sqi (PyF.fin spi) =
      .ok (PyF.fin (q * (dpi - p) / 2),
        if 0 < sqi then PyF.fin ((q + sqi) * p / 2)
        else PyF.fin (q * (p - spi) / 2)) := by
  unfold calculate_surpluses
  rw [if_neg (by push_neg; exact ⟨hq, hp⟩)]
  simp only [fin_sub_fin, fin_mul_fin, fin_half, gt_iff_lt]

lemma calculate_surpluses_nonpos (q p : ℚ) (dpi' : PyF) (sqi : ℚ)
    (spi' : PyF) (hle : p ≤ 0 ∨ q ≤ 0) :
    calculate_surpluses q p dpi' sqi spi' =
      .error "Equilibrium values must be positive" := by
  unfold calculate_surpluses
  rw [if_pos hle.symm]

/-- Claim C2: `calculate_equilibrium` fails with the parallel-curves error
exactly when `|demand.slope − supply.slope| < tol`, fails with the distinct
negative-values error exactly when the slopes are not within tolerance but
the algebraic intersection has negative price or negative quantity, and
succeeds otherwise. -/
theorem equilibrium_error_cases (di ds si ss : ℚ) :
    (calculate_equilibrium di ds si ss =
        .error "Demand and supply curves are parallel - no equilibrium exists" ↔
      |ds - ss| < tol) ∧
    (calculate_equilibrium di ds si ss =
        .error "Equilibrium point has negative values" ↔
      (tol ≤ |ds - ss| ∧ ((si - di) / (ds - ss) < 0 ∨
        di + ds * ((si - di) / (ds - ss)) < 0))) ∧
    ((∃ r, calculate_equilibrium di ds si ss = .ok r) ↔
      (tol ≤ |ds - ss| ∧ ¬((si - di) / (ds - ss) < 0 ∨
        di + ds * ((si - di) / (ds - ss)) < 0))) ∧
    ("Demand and supply curves are parallel - no equilibrium exists" ≠
      "Equilibrium point has negative values") := by
  by_cases h1 : |ds - ss| < tol
  · simp only [calculate_equilibrium]
    rw [if_pos h1]
    exact ⟨iff_of_true rfl h1,
      iff_of_false (by simp) (fun hc => (not_le.mpr h1) hc.1),
      iff_of_false (by simp) (fun hc => (not_le.mpr h1) hc.1),
      by decide⟩
  · simp only [calculate_equilibrium]
    rw [if_neg h1]
    by_cases h2 : (si - di) / (ds - ss) < 0 ∨
        di + ds * ((si - di) / (ds - ss)) < 0
    · rw [if_pos h2]
      exact ⟨iff_of_false (by simp) h1,
        iff_of_true rfl ⟨not_lt.mp h1, h2⟩,
        iff_of_false (by simp) (fun hc => hc.2 h2),
        by decide⟩
    · rw [if_neg h2]
      exact ⟨iff_of_false (by simp) h1,
        iff_of_false (by simp) (fun hc => h2 hc.2),
        iff_of_true ⟨_, rfl⟩ ⟨not_lt.mp h1, h2⟩,
        by decide⟩

/-- Witness for C2 at demand (15000, −2500), supply (2000, 7500). -/
theorem equilibrium_error_cases_witness :
    ∃ r, calculate_equilibrium 15000 (-2500) 2000 7500 = .ok r :=
  (equilibrium_error_cases 15000 (-2500) 2000 7500).2.2.1.mpr
    (by norm_num [tol, abs_div])

/-- Claim C3: with a positive equilibrium point and finite intercept inputs,
`calculate_surpluses` returns consumer surplus `q·(dpi − p)/2` and producer
surplus `(q + sqi)·p/2` when `sqi > 0`, else `q·(p − spi)/2`; with a
non-positive equilibrium price or quantity it fails with the
positive-equilibrium error. -/
theorem surplus_formulas (q p dpi sqi spi : ℚ) :
    (0 < p → 0 < q →
      calculate_surpluses q p (PyF.fin dpi) sqi (PyF.fin spi) =
        .ok (PyF.fin (q * (dpi - p) / 2),
          if 0 < sqi then PyF.fin ((q + sqi) * p / 2)
          else PyF.fin (q * (p - spi) / 2))) ∧
    (∀ dpi' spi' : PyF, p ≤ 0 ∨ q ≤ 0 →
      calculate_surpluses q p dpi' sqi spi' =
        .error "Equilibrium values must be positive") := by
  exact ⟨fun hp hq => calculate_surpluses_pos q p dpi sqi spi hp hq,
    fun dpi' spi' hle => calculate_surpluses_nonpos q p dpi' sqi spi' hle⟩

/-- Witness for C3: the positive branch at the example equilibrium and the
error branch at a zero price. -/
theorem surplus_formulas_witness :
    calculate_surpluses 11750 (13 / 10) (PyF.fin 6) 2000
        (PyF.fin (-4 / 15)) =
      .ok (PyF.fin (55225 / 2), PyF.fin (17875 / 2)) ∧
    calculate_surpluses 1 0 PyF.pinf 1 PyF.pinf =
      .error "Equilibrium values must be positive" := by
  constructor
  · have h := (surplus_formulas 11750 (13 / 10) 6 2000 (-4 / 15)).1
      (by norm_num) (by norm_num)
    rw [h]
    norm_num
  · exact (surplus_formulas 1 0 0 1 0).2 PyF.pinf PyF.pinf (Or.inl le_rfl)

/-- Claim C4: whenever `calculate_equilibrium` succeeds it returns
`price = (supply.intercept − demand.intercept)/(demand.slope − supply.slope)`
and `quantity = demand.intercept + demand.slope·price`; at demand
(15000, −2500) and supply (2000, 7500) it returns price `13/10` and quantity
`11750`, and the producer surplus for this result comes out of the trapezoid
branch since the supply quantity-axis intercept `2000` is positive. -/
theorem equilibrium_example_correct :
    (∀ di ds si ss p q : ℚ,
      calculate_equilibrium di ds si ss = .ok (p, q) →
      p = (si - di) / (ds - ss) ∧ q = di + ds * p) ∧
    calculate_equilibrium 15000 (-2500) 2000 7500 = .ok (13 / 10, 11750) ∧
    (0 : ℚ) < 2000 ∧
    calculate_surpluses 11750 (13 / 10) (price_intercept 15000 (-2500)) 2000
        (price_intercept 2000 7500) =
      .ok (PyF.fin (11750 * (6 - 13 / 10) / 2),
           PyF.fin ((11750 + 2000) * (13 / 10) / 2)) := by
  refine ⟨?_, ?_, by norm_num, ?_⟩
  · intro di ds si ss p q h
    obtain ⟨-, hp, hq⟩ := calculate_equilibrium_ok_inv h
    exact ⟨hp, hq⟩
  · norm_num [calculate_equilibrium, tol]
  · have h6 : price_intercept 15000 (-2500) = PyF.fin 6 := by
      norm_num [price_intercept]
    have hs : price_intercept 2000 7500 = PyF.fin (-4 / 15) := by
      norm_num [price_intercept]
    rw [h6, hs]
    rw [calculate_surpluses_pos 11750 (13 / 10) 6 2000 (-4 / 15)
      (by norm_num) (by norm_num)]
    norm_num

/-- Witness for C4's universally quantified part, instantiated at the
example curves using the example result itself. -/
theorem equilibrium_example_correct_witness :
    (13 / 10 : ℚ) = (2000 - 15000) / (-2500 - 7500) ∧
    (11750 : ℚ) = 15000 + -2500 * (13 / 10) := by
  have h := equilibrium_example_correct
  exact h.1 15000 (-2500) 2000 7500 (13 / 10) 11750 h.2.1

/-- Claim C10: whenever `calculate_equilibrium` succeeds, the returned point
lies exactly on both input curves: the quantity equals
`demand.intercept + demand.slope·price` and also
`supply.intercept + supply.slope·price`. -/
theorem equilibrium_on_both_curves (di ds si ss p q : ℚ)
    (h : calculate_equilibrium di ds si ss = .ok (p, q)) :
    q = di + ds * p ∧ q = si + ss * p := by
  obtain ⟨htol, hp, hq⟩ := calculate_equilibrium_ok_inv h
  have hne : ds - ss ≠ 0 := by
    intro h0
    rw [h0] at htol
    simp at htol
    exact absurd htol (not_le.mpr tol_pos)
  refine ⟨hq, ?_⟩
  rw [hq, hp]
  field_simp
  ring

/-- Witness for C10 at the example curves. -/
theorem equilibrium_on_both_curves_witness :
    (11750 : ℚ) = 15000 + -2500 * (13 / 10) ∧
    (11750 : ℚ) = 2000 + 7500 * (13 / 10) :=
  equilibrium_on_both_curves 15000 (-2500) 2000 7500 (13 / 10) 11750
    (by norm_num [calculate_equilibrium, tol])

/-- Claim C6 (amended): every upstream failure is propagated by the
`Calculator` pipeline as a failure — no partial result is returned — but the
message is rewrapped with a stage prefix (`"Error calculating curves: "` or
`"Error calculating equilibrium: "`) rather than surfaced verbatim. -/
theorem pipeline_propagates_prefixed :
    (∀ (dp dq sp sq : List ℚ) (e : String),
      perform_calculations dq dp dp.length = .error e →
      Calculator.calculate_curves dp dq sp sq =
        .error ("Error calculating curves: " ++ e)) ∧
    (∀ (dp dq sp sq : List ℚ) (di ds : ℚ) (e : String),
      perform_calculations dq dp dp.length = .ok (di, ds) →
      perform_calculations sq sp sp.length = .error e →
      Calculator.calculate_curves dp dq sp sq =
        .error ("Error calculating curves: " ++ e)) ∧
    (∀ (di ds si ss : ℚ) (e : String),
      calculate_equilibrium di ds si ss = .error e →
      Calculator.calculate_equilibrium_and_surpluses di ds si ss =
        .error ("Error calculating equilibrium: " ++ e)) ∧
    (∀ (di ds si ss p q : ℚ) (e : String),
      calculate_equilibrium di ds si ss = .ok (p, q) →
      calculate_surpluses q p (price_intercept di ds) si
          (price_intercept si ss) = .error e →
      Calculator.calculate_equilibrium_and_surpluses di ds si ss =
        .error ("Error calculating equilibrium: " ++ e)) := by
  refine ⟨?_, ?_, ?_, ?_⟩
  · intro dp dq sp sq e h
    unfold Calculator.calculate_curves
    rw [h]
  · intro dp dq sp sq di ds e h1 h2
    unfold Calculator.calculate_curves
    rw [h1, h2]
  · intro di ds si ss e h
    unfold Calculator.calculate_equilibrium_and_surpluses
    rw [h]
  · intro di ds si ss p q e h1 h2
    unfold Calculator.calculate_equilibrium_and_surpluses
    rw [h1]
    simp only [h2]

/-- Witness for C6 (amended), exercising all four propagation paths at
concrete inputs. -/
theorem pipeline_propagates_prefixed_witness :
    Calculator.calculate_curves [1, 2] [5, 5] [1, 2] [3, 4] =
      .error ("Error calculating curves: " ++
        "Cannot calculate slope: denominator is too close to zero") ∧
    Calculator.calculate_curves [1, 2] [1, 2] [1, 2] [5, 5] =
      .error ("Error calculating curves: " ++
        "Cannot calculate slope: denominator is too close to zero") ∧
    Calculator.calculate_equilibrium_and_surpluses 0 1 0 1 =
      .error ("Error calculating equilibrium: " ++
        "Demand and supply curves are parallel - no equilibrium exists") ∧
    Calculator.calculate_equilibrium_and_surpluses 5 (-1) 5 1 =
      .error ("Error calculating equilibrium: " ++
        "Equilibrium values must be positive") := by
  have hdeg : perform_calculations [(5 : ℚ), 5] [(1 : ℚ), 2] 2 =
      .error "Cannot calculate slope: denominator is too close to zero" := by
    norm_num [perform_calculations, calculate_sums, calculate_slope, tol,
      abs_div, List.cons_ne_nil]
  have hok : perform_calculations [(1 : ℚ), 2] [(1 : ℚ), 2] 2 = .ok (0, 1) := by
    norm_num [perform_calculations, calculate_sums, calculate_slope,
      calculate_intercept, tol, abs_div, List.cons_ne_nil]
  have heq : calculate_equilibrium 5 (-1) 5 1 = .ok (0, 5) := by
    norm_num [calculate_equilibrium, tol, abs_div]
  refine ⟨?_, ?_, ?_, ?_⟩
  · exact pipeline_propagates_prefixed.1 [1, 2] [5, 5] [1, 2] [3, 4] _ hdeg
  · exact pipeline_propagates_prefixed.2.1 [1, 2] [1, 2] [1, 2] [5, 5]
      0 1 _ hok hdeg
  · exact pipeline_propagates_prefixed.2.2.1 0 1 0 1 _
      (by norm_num [calculate_equilibrium, tol])
  · exact pipeline_propagates_prefixed.2.2.2 5 (-1) 5 1 0 5 _ heq
      (calculate_surpluses_nonpos 5 0 _ 5 _ (Or.inl le_rfl))

/-- Claim C6 counterexample: on a degenerate demand sample the fitting stage
fails with one message, and `Calculator.calculate_curves` surfaces a
different, rewrapped message — not the same error message unchanged. -/
theorem pipeline_rewrap_counterexample :
    perform_calculations [5, 5] [1, 2] 2 =
      .error "Cannot calculate slope: denominator is too close to zero" ∧
    Calculator.calculate_curves [1, 2] [5, 5] [1, 2] [3, 4] =
      .error
        "Error calculating curves: Cannot calculate slope: denominator is too close to zero" ∧
    ("Error calculating curves: Cannot calculate slope: denominator is too close to zero" ≠
      "Cannot calculate slope: denominator is too close to zero") := by
  have hdeg : perform_calculations [(5 : ℚ), 5] [(1 : ℚ), 2] 2 =
      .error "Cannot calculate slope: denominator is too close to zero" := by
    norm_num [perform_calculations, calculate_sums, calculate_slope, tol,
      abs_div, List.cons_ne_nil]
  refine ⟨hdeg, ?_, by decide⟩
  unfold Calculator.calculate_curves
  rw [show ([(1 : ℚ), 2]).length = 2 from rfl, hdeg]
  rfl

/-- Claim C7 (amended): the regression-denominator guard and the
parallel-slopes guard both use the explicit tolerance constant `1e-10`,
but the price-axis-intercept computation guards with exact equality to zero:
it yields infinity exactly when the slope is exactly `0`. -/
theorem near_zero_guards :
    (∀ (sx sy sxx sxy : ℚ) (n : ℕ),
      (∃ e, calculate_slope sx sy sxx sxy n = .error e) ↔
        |sxx - sx ^ 2 / (n : ℚ)| < tol) ∧
    (∀ di ds si ss : ℚ,
      calculate_equilibrium di ds si ss =
          .error "Demand and supply curves are parallel - no equilibrium exists" ↔
        |ds - ss| < tol) ∧
    (∀ i s : ℚ, price_intercept i s = PyF.pinf ↔ s = 0) ∧
    tol = 1 / 10 ^ 10 := by
  refine ⟨?_, ?_, ?_, rfl⟩
  · intro sx sy sxx sxy n
    simp only [calculate_slope]
    by_cases h : |sxx - sx ^ 2 / (n : ℚ)| < tol
    · rw [if_pos h]
      exact iff_of_true ⟨_, rfl⟩ h
    · rw [if_neg h]
      exact iff_of_false (by simp) h
  · intro di ds si ss
    exact parallel_error_iff di ds si ss
  · intro i s
    unfold price_intercept
    by_cases h : s ≠ 0
    · rw [if_pos h]
      exact iff_of_false (by simp) h
    · rw [if_neg h]
      exact iff_of_true rfl (not_not.mp h)

/-- Witness for C7 (amended) at concrete inputs for all three guards. -/
theorem near_zero_guards_witness :
    (∃ e, calculate_slope 5 1 (25 / 2) 1 2 = .error e) ∧
    (calculate_equilibrium 0 1 0 1 =
      .error "Demand and supply curves are parallel - no equilibrium exists") ∧
    price_intercept 3 0 = PyF.pinf := by
  refine ⟨?_, ?_, ?_⟩
  · exact (near_zero_guards.1 5 1 (25 / 2) 1 2).mpr (by norm_num [tol])
  · exact (near_zero_guards.2.1 0 1 0 1).mpr (by norm_num [tol])
  · exact (near_zero_guards.2.2.1 3 0).mpr rfl

/-- Claim C7 counterexample: the slope `1e-11` is within the tolerance
`1e-10` of zero, yet the price-axis-intercept computation does not treat it
as zero — it returns the finite value `-1e11` instead of infinity, so this
third guard does not use the `1e-10` tolerance constant. -/
theorem price_intercept_guard_counterexample :
    |(1 / 10 ^ 11 : ℚ)| < tol ∧
    price_intercept 1 (1 / 10 ^ 11) = PyF.fin (-(10 ^ 11)) ∧
    price_intercept 1 (1 / 10 ^ 11) ≠ PyF.pinf := by
  have hfin : price_intercept 1 (1 / 10 ^ 11) = PyF.fin (-(10 ^ 11)) := by
    norm_num [price_intercept]
  refine ⟨by norm_num [tol, abs_div], hfin, ?_⟩
  rw [hfin]
  exact fun hc => PyF.noConfusion hc
